import Mathlib

/-!
Shallow embedding of the `prism-neo` koishi plugin (src/index.ts, src/service.ts,
src/model.ts) and verification of its specification claims.

Modelling conventions:
* JavaScript numbers that the code treats as integral (costs, balances, epoch
  milliseconds) are embedded as `Int`.
* ISO date strings / `Date` objects are embedded as a `DateTime` record carrying
  the local calendar fields returned by the `getFullYear`/`getMonth`/… accessors
  together with the epoch-millisecond instant returned by `getTime`.
* `null`/`undefined` fields become `Option`; JavaScript truthiness tests on
  numbers (`if (x)`) become `x != 0`, on strings `s != ""`, on objects
  `Option.isSome`.
* The process-wide `Map<string, number>` (`kv`) becomes a partial function
  `String → Option Int`; `kv.get`, `kv.set`, `kv.delete` are embedded as
  function application and pointwise update, exactly where the source performs
  them relative to the awaited remote calls.
* Remote HTTP calls are the sole suspension points; a handler invocation is
  embedded as a pure function taking the outcome (`Except ApiError _`) of each
  remote call it may perform, and returning the final reply, the resulting
  store, and the list of remote calls it issued.
-/

/-- The process-wide pending-logout map `kv : Map<string, number>` of
`src/index.ts`, embedded as a partial function from user id to the recorded
epoch-millisecond timestamp. -/
abbrev Store := String → Option Int

/-- Plugin configuration (`Config` in `src/index.ts`). -/
structure Config where
  url : String
  admin : String
deriving DecidableEq

/-- The fields of `argv.session` that the handlers read: the calling user's id
and the quotable message id (absent or empty when not quotable). -/
structure SessionCtx where
  userId : String
  messageId : Option String
deriving DecidableEq

/-- The `ActionContext` of `src/types.ts`, restricted to what the handlers
observe: the configuration, the caller's session, and the boolean outcome of
`ctx.permissions.check(config.admin, session)` for this invocation. -/
structure ActionContext where
  config : Config
  session : SessionCtx
  adminCheck : Bool
deriving DecidableEq

/-- `ApiErrorData` of `src/model.ts`; the `message` field is optional because
the thrown value is probed as `Partial<ApiError>`. -/
structure ApiErrorData where
  message : Option String
deriving DecidableEq

/-- `ApiError.response` of `src/model.ts`, with the optionality introduced by
the `?.` probing in `handleAction`. -/
structure ApiErrorResponse where
  data : Option ApiErrorData
deriving DecidableEq

/-- A thrown error value, probed as `(e as Partial<ApiError>)?.response?.data?.message`. -/
structure ApiError where
  response : Option ApiErrorResponse
deriving DecidableEq

/-- The optional-chain `e?.response?.data?.message` from `handleAction`. -/
def apiMessageOf (e : ApiError) : Option String :=
  e.response.bind fun r => r.data.bind fun d => d.message

/-- The generic localized failure message literal of `handleAction`. -/
def genericFailure : String := "操作失败，发生了未知错误。"

/-- The string rendering of the koishi element `h('quote', { id })` that
`handleAction` prepends to the reply when the session has a message id. -/
def quoteElement (id : String) : String := "<quote id=\x22" ++ id ++ "\x22/>"

/-- The outer command wrapper `handleAction` of `src/index.ts`: the action's
outcome (normal string or thrown error) is normalized to a single reply string;
a thrown error contributes its `response.data.message` when that field is
present and truthy (non-empty), otherwise the generic failure message; finally
the reply is prefixed with a quote element when `argv.session?.messageId` is
truthy. -/
def handleAction (session : SessionCtx) (action : Except ApiError String) : String :=
  let message : String :=
    match action with
    | Except.ok m => m
    | Except.error e =>
      match apiMessageOf e with
      | some apiMessage => if apiMessage != "" then apiMessage else genericFailure
      | none => genericFailure
  match session.messageId with
  | some mid => if mid != "" then quoteElement mid ++ message else message
  | none => message

/-- JavaScript `String.prototype.split` with a single-character separator:
splits on every occurrence, keeping empty pieces. -/
def jsSplit (sep : Char) : List Char → List (List Char)
  | [] => [[]]
  | c :: cs =>
    let r := jsSplit sep cs
    if c = sep then [] :: r
    else
      match r with
      | [] => [[c]]
      | h :: t => (c :: h) :: t

/-- The expression `user.split(':')[1]` of `getTargetUserId`: the second
colon-separated field.  When the argument holds no colon the JavaScript index
yields `undefined`, which is embedded as the string it stringifies to. -/
def jsSplitColonSecond (s : String) : String :=
  match (jsSplit ':' s.data).get? 1 with
  | some cs => String.mk cs
  | none => "undefined"

/-- `getTargetUserId` of `src/index.ts`: with a truthy explicit target the
caller must pass the admin-capability check, and the target id is
`user.split(':')[1]`; otherwise the target is the caller. -/
def getTargetUserId (context : ActionContext) (user : Option String) : Except String String :=
  match user with
  | some u =>
    if u != "" then
      if context.adminCheck then Except.ok (jsSplitColonSecond u)
      else Except.error "权限不足"
    else Except.ok context.session.userId
  | none => Except.ok context.session.userId

/-- A date-time value: the local calendar fields observed through the JavaScript
`Date` accessors (month already 1-based, i.e. `getMonth() + 1`), together with
the epoch-millisecond instant returned by `getTime`. -/
structure DateTime where
  year : Nat
  month : Nat
  day : Nat
  hour : Nat
  minute : Nat
  second : Nat
  epochMs : Int
deriving DecidableEq

/-- `n.toString().padStart(2, '0')`. -/
def pad2 (n : Nat) : String :=
  if (toString n).length < 2 then "0" ++ toString n else toString n

/-- `formatDateTime` of `src/index.ts`: a falsy date renders as the localized
"never expires" string, otherwise `YYYY/MM/DD HH:MM:SS` with two-digit padding
on all but the year. -/
def formatDateTime (dateStr : Option DateTime) : String :=
  match dateStr with
  | none => "永不过期"
  | some date =>
    toString date.year ++ "/" ++ pad2 date.month ++ "/" ++ pad2 date.day ++ " " ++
      pad2 date.hour ++ ":" ++ pad2 date.minute ++ ":" ++ pad2 date.second

/-- `DiscountLog` of `src/model.ts`. -/
structure DiscountLog where
  asset : String
  saved : Int
deriving DecidableEq

/-- `DiscountInfo` of `src/model.ts`. -/
structure DiscountInfo where
  finalCost : Int
  originalCost : Int
  appliedLogs : List DiscountLog
deriving DecidableEq

/-- `BillingSegment` of `src/model.ts`. -/
structure BillingSegment where
  ruleId : Nat
  ruleName : String
  startTime : DateTime
  endTime : DateTime
  durationMinutes : Int
  cost : Int
  isCapped : Bool
deriving DecidableEq

/-- `LogoutSession` of `src/model.ts`; the date fields are optional because
`formatDateTime` guards against falsy values. -/
structure LogoutSession where
  createdAt : Option DateTime
  closedAt : Option DateTime
  costOverwrite : Option Int
  finalCost : Int
deriving DecidableEq

/-- `LogoutBilling` of `src/model.ts`. -/
structure LogoutBilling where
  totalCost : Int
deriving DecidableEq

/-- `BillingInfo` of `src/model.ts`. -/
structure BillingInfo where
  startTime : Option DateTime
  endTime : Option DateTime
  totalCost : Int
  segments : List BillingSegment
deriving DecidableEq

/-- `Asset` of `src/model.ts`. -/
structure Asset where
  type : String
  id : Nat
  assetId : Nat
  name : String
  expireAt : Option DateTime
  activeAt : Option DateTime
  description : Option String
  valid : Bool
deriving DecidableEq

/-- `UserAsset` of `src/model.ts`. -/
structure UserAsset where
  id : Nat
  userId : Nat
  assetDefId : Nat
  assetType : String
  assetId : Nat
  asset : Option Asset
  addAt : DateTime
  activeAt : Option DateTime
  expireAt : Option DateTime
  comment : String
  count : Int
deriving DecidableEq

/-- `UserAssetWithDef` of `src/model.ts`: a `UserAsset` whose `asset` field is
known non-null. -/
structure UserAssetWithDef where
  id : Nat
  userId : Nat
  assetDefId : Nat
  assetType : String
  assetId : Nat
  asset : Asset
  addAt : DateTime
  activeAt : Option DateTime
  expireAt : Option DateTime
  comment : String
  count : Int
deriving DecidableEq

/-- The `details` record of a wallet bucket holding raw `UserAsset`s. -/
structure WalletDetails where
  available : List UserAsset
  unavailable : List UserAsset
deriving DecidableEq

/-- The `details` record of a wallet bucket holding `UserAssetWithDef`s. -/
structure WalletDetailsWithDef where
  available : List UserAssetWithDef
  unavailable : List UserAssetWithDef
deriving DecidableEq

/-- The `total` bucket of `Wallet`. -/
structure WalletTotal where
  available : Int
  all : Int
deriving DecidableEq

/-- The `paid`/`free` buckets of `Wallet`. -/
structure WalletBucket where
  available : Int
  all : Int
  details : Option WalletDetails
deriving DecidableEq

/-- The `tickets`/`passes` buckets of `Wallet`. -/
structure WalletBucketWithDef where
  available : Int
  all : Int
  details : Option WalletDetailsWithDef
deriving DecidableEq

/-- `Wallet` of `src/model.ts`. -/
structure Wallet where
  total : WalletTotal
  paid : WalletBucket
  free : WalletBucket
  tickets : WalletBucketWithDef
  passes : WalletBucketWithDef
deriving DecidableEq

/-- `BillingResponse` of `src/model.ts`. -/
structure BillingResponse where
  session : LogoutSession
  billing : BillingInfo
  discount : Option DiscountInfo
  wallet : Wallet
deriving DecidableEq

/-- `LogoutResponse` of `src/model.ts`. -/
structure LogoutResponse where
  session : LogoutSession
  billing : LogoutBilling
deriving DecidableEq

/-- The `originalCost` computation of `formatBilling` (src/index.ts line 67):
`res.discount ? res.discount.originalCost : res.billing.totalCost`. -/
def resolvedOriginalCost (res : BillingResponse) : Int :=
  match res.discount with
  | some d => d.originalCost
  | none => res.billing.totalCost

/-- The `finalCost` computation of `formatBilling` (src/index.ts lines 68-71):
first `res.discount ? res.discount.finalCost : res.billing.totalCost`, then
overwritten by `res.session.costOverwrite` when that value is truthy
(a JavaScript number is truthy exactly when it is non-zero). -/
def resolvedFinalCost (res : BillingResponse) : Int :=
  let finalCost := match res.discount with
    | some d => d.finalCost
    | none => res.billing.totalCost
  match res.session.costOverwrite with
  | some c => if c != 0 then c else finalCost
  | none => finalCost

/-- The per-asset discount deduction lines of `formatBilling`
(src/index.ts lines 75-79). -/
def discountLogLines (res : BillingResponse) : List String :=
  match res.discount with
  | some d =>
    if d.appliedLogs.length > 0 then
      d.appliedLogs.map fun log => "  -「" ++ log.asset ++ "」: -" ++ toString log.saved ++ " 月饼"
    else []
  | none => []

/-- `formatTime` inside the segment loop of `formatBilling`:
`toLocaleTimeString('en-GB', { hour/minute/second: '2-digit', hour12: false })`,
which renders as `HH:MM:SS` on a 24-hour clock. -/
def formatTime (d : DateTime) : String :=
  pad2 d.hour ++ ":" ++ pad2 d.minute ++ ":" ++ pad2 d.second

/-- `formatDate` inside the segment loop of `formatBilling`:
`` `${(d.getMonth() + 1)}/${d.getDate()}` ``. -/
def formatDate (d : DateTime) : String :=
  toString d.month ++ "/" ++ toString d.day

/-- The comparison `start.toLocaleDateString() === end.toLocaleDateString()`:
two instants render identically exactly when they fall on the same local
calendar date. -/
def sameLocalDate (a b : DateTime) : Bool :=
  a.year == b.year && a.month == b.month && a.day == b.day

/-- The three lines pushed for one billing segment by `formatBilling`
(src/index.ts lines 96-114): rule name, time range (same-day or cross-day
form) and cost with the capped marker (note the trailing space the template
leaves when the segment is not capped). -/
def segmentLines (seg : BillingSegment) : List String :=
  let timeString :=
    if sameLocalDate seg.startTime seg.endTime then
      formatTime seg.startTime ++ " - " ++ formatTime seg.endTime
    else
      formatDate seg.startTime ++ " " ++ formatTime seg.startTime ++ " - " ++
        formatDate seg.endTime ++ " " ++ formatTime seg.endTime
  [ "- " ++ seg.ruleName,
    "  时段: " ++ timeString,
    "  费用: " ++ toString seg.cost ++ " 月饼 " ++ (if seg.isCapped then "(已封顶)" else "") ]

/-- The segment block of `formatBilling` (src/index.ts lines 93-119): with a
non-empty segment list, each segment with `cost >= 0` contributes its three
lines and each segment with negative cost contributes nothing; with an empty
list a single placeholder line is pushed. -/
def segmentSection (segments : List BillingSegment) : List String :=
  if segments.length > 0 then
    segments.flatMap fun seg => if seg.cost ≥ 0 then segmentLines seg else []
  else ["  (无)"]

/-- The monthly-pass footer of `formatBilling` (src/index.ts lines 122-126):
`res.wallet.passes?.details?.available?.[0]`, rendered only when that first
available pass exists and carries a truthy expiry. -/
def passFooter (res : BillingResponse) : List String :=
  match res.wallet.passes.details with
  | some details =>
    match details.available.head? with
    | some monthlyPass =>
      match monthlyPass.expireAt with
      | some _ => ["---", "您的月卡将于 " ++ formatDateTime monthlyPass.expireAt ++ " 到期。"]
      | none => []
    | none => []
  | none => []

/-- The `message` array assembled by `formatBilling` (src/index.ts lines
57-128), in push order: header, session times, costs with discount deductions,
wallet balances, the segment block, and the monthly-pass footer. -/
def formatBillingLines (res : BillingResponse) : List String :=
  [ "--- 账单详情 ---",
    "入场: " ++ formatDateTime res.session.createdAt,
    "结算: " ++ formatDateTime res.billing.endTime,
    "---",
    "计费价: " ++ toString (resolvedOriginalCost res) ++ " 月饼" ]
  ++ discountLogLines res
  ++ [ "结算价: " ++ toString (resolvedFinalCost res) ++ " 月饼",
       "---",
       "当前余额: " ++ toString res.wallet.total.available ++ " 月饼",
       "扣款后: " ++ toString (res.wallet.total.available - resolvedFinalCost res) ++ " 月饼",
       "---",
       "计费区间:" ]
  ++ segmentSection res.billing.segments
  ++ passFooter res

/-- `formatBilling` of `src/index.ts`: the assembled lines joined by newlines. -/
def formatBilling (res : BillingResponse) : String :=
  String.intercalate "\n" (formatBillingLines res)

/-- One remote HTTP call issued by the logout handler, tagged with the user id
interpolated into its URL. -/
inductive RemoteCall where
  | billingCall (userId : String)
  | logoutCall (userId : String)
deriving DecidableEq

/-- The user id a remote call is issued for. -/
def RemoteCall.target : RemoteCall → String
  | billingCall u => u
  | logoutCall u => u

/-- The observable outcome of one `handleLogoutCmd` invocation: the value
returned to the wrapper (`Except.error` when a remote call threw), the
resulting pending-logout store, the remote calls issued, and which branch ran
(`confirmed = true` for the confirmation branch). -/
structure LogoutOutcome where
  result : Except ApiError String
  store : Store
  calls : List RemoteCall
  confirmed : Bool

/-- The branch condition of `handleLogoutCmd` (src/index.ts line 171):
`pendingLogout && (now - pendingLogout < 60 * 1000)` — the stored timestamp
must be truthy (non-zero) and its age below the 60000 ms TTL. -/
def logoutConfirmCond (store : Store) (targetUserId : String) (now : Int) : Bool :=
  match store targetUserId with
  | some pendingLogout => pendingLogout != 0 && decide (now - pendingLogout < 60 * 1000)
  | none => false

/-- `handleLogoutCmd` of `src/index.ts` (lines 164-192).  The outcomes of the
two possible remote calls are supplied as parameters; the store operations are
performed exactly where the source performs them relative to the awaits: in
the confirmation branch `kv.delete` precedes the awaited `service.logout`, so
the entry is gone even when that call throws; in the preview branch `kv.set`
follows the awaited `service.billing`, so a throwing billing call leaves the
store untouched. -/
def handleLogoutCmd (context : ActionContext) (user : Option String) (store : Store)
    (now : Int) (billingResult : Except ApiError BillingResponse)
    (logoutResult : Except ApiError LogoutResponse) : LogoutOutcome :=
  match getTargetUserId context user with
  | Except.error error => { result := Except.ok error, store := store, calls := [], confirmed := false }
  | Except.ok targetUserId =>
    if logoutConfirmCond store targetUserId now then
      let store1 : Store := fun k => if k == targetUserId then none else store k
      match logoutResult with
      | Except.error e =>
        { result := Except.error e, store := store1,
          calls := [RemoteCall.logoutCall targetUserId], confirmed := true }
      | Except.ok res =>
        { result := Except.ok (String.intercalate "\n"
            [ (match user with
               | some u => if u != "" then "✅ 已为用户 " ++ targetUserId ++ " 退场" else "✅ 退场成功"
               | none => "✅ 退场成功"),
              "入场时间: " ++ formatDateTime res.session.createdAt,
              "离场时间: " ++ formatDateTime res.session.closedAt,
              "消费: " ++ toString res.session.finalCost ++ " 月饼" ]),
          store := store1, calls := [RemoteCall.logoutCall targetUserId], confirmed := true }
    else
      match billingResult with
      | Except.error e =>
        { result := Except.error e, store := store,
          calls := [RemoteCall.billingCall targetUserId], confirmed := false }
      | Except.ok billingRes =>
        let billingMessage := formatBilling billingRes
        let store1 : Store := fun k => if k == targetUserId then some now else store k
        { result := Except.ok
            (match user with
             | some u =>
               if u != "" then
                 "以下是用户 " ++ targetUserId ++ " 的账单预览:\n\n" ++ billingMessage ++
                   "\n\n---\n⚠️ 请在60秒内再次输入 /logout " ++ u ++ " 以确认登出。"
               else
                 billingMessage ++ "\n\n---\n⚠️ 这是您的账单预览。请在60秒内再次输入 /logout 以确认登出。"
             | none =>
               billingMessage ++ "\n\n---\n⚠️ 这是您的账单预览。请在60秒内再次输入 /logout 以确认登出。"),
          store := store1, calls := [RemoteCall.billingCall targetUserId], confirmed := false }

/-- The free-tier available asset list a wallet handler reads:
`res.free.details?.available`, defaulting to empty through the `|| []`. -/
def freeAvailableAssets (res : Wallet) : List UserAsset :=
  match res.free.details with
  | some details => details.available
  | none => []

/-- `res.free.details?.available?.filter(asset => asset.expireAt) || []` of
`handleWalletCmd` (src/index.ts line 230): the free-tier available assets with
a truthy (non-null) expiry. -/
def expiringFreeAssets (res : Wallet) : List UserAsset :=
  (freeAvailableAssets res).filter fun asset => asset.expireAt.isSome

/-- `new Date(a.expireAt!).getTime()`, the sort key of the expiring-asset sort
(src/index.ts line 232). -/
def expireKey (a : UserAsset) : Int :=
  match a.expireAt with
  | some d => d.epochMs
  | none => 0

/-- The "expiring soon" note of `handleWalletCmd` (src/index.ts lines 230-235):
when some free-tier available asset has a truthy expiry, the expiring assets
are sorted ascending by epoch expiry (JavaScript `Array.prototype.sort` is
stable, embedded as a stable merge sort under the `≤` comparator) and the
first element's count and expiry are reported. -/
def expiringNote (res : Wallet) : List String :=
  let expiring := expiringFreeAssets res
  if expiring.length > 0 then
    let sorted := expiring.mergeSort fun a b => decide (expireKey a ≤ expireKey b)
    match sorted.head? with
    | some soonestToExpire =>
      ["\n注意：您有 " ++ toString soonestToExpire.count ++ " 免费月饼将于 " ++
        formatDateTime soonestToExpire.expireAt ++ " 过期。"]
    | none => []
  else []

/-- The passes block of `handleWalletCmd` (src/index.ts lines 238-245). -/
def passesSection (res : Wallet) : List String :=
  let availablePasses := match res.passes.details with
    | some details => details.available
    | none => []
  if availablePasses.length > 0 then
    ("\n--- 可用月卡 (" ++ toString availablePasses.length ++ ") ---")
      :: availablePasses.flatMap fun pass =>
        ["- " ++ pass.asset.name, "  到期: " ++ formatDateTime pass.expireAt]
  else []

/-- The tickets block of `handleWalletCmd` (src/index.ts lines 248-255). -/
def ticketsSection (res : Wallet) : List String :=
  let availableTickets := match res.tickets.details with
    | some details => details.available
    | none => []
  if availableTickets.length > 0 then
    ("\n--- 可用优惠券 (" ++ toString availableTickets.length ++ ") ---")
      :: availableTickets.flatMap fun ticket =>
        ["- " ++ ticket.asset.name ++ " (x" ++ toString ticket.count ++ ")",
         "  到期: " ++ formatDateTime ticket.expireAt]
  else []

/-- The message lines assembled by `handleWalletCmd` (src/index.ts lines
215-257) once the wallet response is in hand: header (admin-on-behalf-of or
self), balances, the locked-balance note when `total.all - total.available`
is positive, the expiring-free-asset note, and the passes/tickets blocks. -/
def handleWalletLines (user : Option String) (userId : String) (res : Wallet) : List String :=
  let targetUserId : Option String := match user with
    | some u => if u != "" then some userId else none
    | none => none
  [ (match targetUserId with
     | some t => "--- 用户 " ++ t ++ " 的钱包余额 ---"
     | none => "--- 钱包余额 ---"),
    "可用: " ++ toString res.total.available ++ " 月饼 (共 " ++ toString res.total.all ++ ")",
    "  - 付费: " ++ toString res.paid.available,
    "  - 免费: " ++ toString res.free.available ]
  ++ (if res.total.all - res.total.available > 0 then
        ["\n您还有 " ++ toString (res.total.all - res.total.available) ++ " 月饼未到可用时间。"]
      else [])
  ++ expiringNote res
  ++ passesSection res
  ++ ticketsSection res

/-- `makeUrl` of `src/service.ts`: trailing whitespace then trailing slashes
are stripped from the base URL, leading whitespace then leading slashes from
the endpoint, and the two are joined around a fixed `/api/` path component. -/
def makeUrl (baseUrl endpoint : String) : String :=
  String.mk (((baseUrl.data.reverse.dropWhile Char.isWhitespace).dropWhile fun c => c = '/').reverse)
    ++ "/api/"
    ++ String.mk ((endpoint.data.dropWhile Char.isWhitespace).dropWhile fun c => c = '/')

/-- Modelled from the spec's words for the cost-precedence claim: the rendered
final cost is `session.costOverwrite` whenever that field is set, otherwise
`discount.finalCost` when a discount is present, otherwise
`billing.totalCost`.  This is the claim-side definition, to be compared with
the source-side `resolvedFinalCost`. -/
def specFinalCostClaimed (res : BillingResponse) : Int :=
  match res.session.costOverwrite with
  | some c => c
  | none =>
    match res.discount with
    | some d => d.finalCost
    | none => res.billing.totalCost

/-- The amended cost-precedence: `session.costOverwrite` wins only when it is
set *and non-zero* (the source tests it for JavaScript truthiness), otherwise
`discount.finalCost` when a discount is present, otherwise
`billing.totalCost`. -/
def specFinalCostAmended (res : BillingResponse) : Int :=
  if (res.session.costOverwrite.getD 0) != 0 then res.session.costOverwrite.getD 0
  else
    match res.discount with
    | some d => d.finalCost
    | none => res.billing.totalCost

/-- Modelled from the spec's words for the identity-resolution claim: the
target argument with the text up to and including the first `:` stripped (the
argument unchanged when it holds no `:`). -/
def specTargetId (s : String) : String :=
  match s.data.dropWhile fun c => c ≠ ':' with
  | [] => s
  | _ :: rest => String.mk rest

/-- The first element of a list attaining the minimal key: the spec-side
description of "minimum by expiry timestamp, ties broken by original order". -/
def firstMinBy {α : Type} (key : α → Int) : List α → Option α
  | [] => none
  | a :: l =>
    match firstMinBy key l with
    | none => some a
    | some b => if key b < key a then some b else some a

/-- An empty wallet, used by concrete test fixtures. -/
def zeroWallet : Wallet :=
  { total := { available := 0, all := 0 },
    paid := { available := 0, all := 0, details := none },
    free := { available := 0, all := 0, details := none },
    tickets := { available := 0, all := 0, details := none },
    passes := { available := 0, all := 0, details := none } }

/-- A closed session record with no overrides, used by concrete fixtures. -/
def exSession : LogoutSession :=
  { createdAt := none, closedAt := none, costOverwrite := none, finalCost := 0 }

/-- A minimal billing response, used by concrete fixtures. -/
def exBillingResponse : BillingResponse :=
  { session := exSession,
    billing := { startTime := none, endTime := none, totalCost := 0, segments := [] },
    discount := none, wallet := zeroWallet }

/-- A minimal logout response, used by concrete fixtures. -/
def exLogoutResponse : LogoutResponse :=
  { session := exSession, billing := { totalCost := 0 } }

/-- A thrown error carrying no response payload. -/
def exApiError : ApiError := { response := none }

/-- A caller session for the concrete fixtures. -/
def exContext : ActionContext :=
  { config := { url := "http://prism.example", admin := "authority:3" },
    session := { userId := "10001", messageId := none },
    adminCheck := false }

/-- An admin caller for the concrete fixtures. -/
def exAdminContext : ActionContext :=
  { config := { url := "http://prism.example", admin := "authority:3" },
    session := { userId := "10001", messageId := none },
    adminCheck := true }

/-- The empty pending-logout store. -/
def emptyStore : Store := fun _ => none

/-- The billing response of the cost-precedence scenario: `totalCost = 100`,
`discount.finalCost = 80`, `costOverwrite = 50`. -/
def costScenarioFull : BillingResponse :=
  { session := { exSession with costOverwrite := some 50 },
    billing := { startTime := none, endTime := none, totalCost := 100, segments := [] },
    discount := some { finalCost := 80, originalCost := 100, appliedLogs := [] },
    wallet := zeroWallet }

/-- The cost-precedence scenario with the overwrite removed. -/
def costScenarioDiscount : BillingResponse :=
  { costScenarioFull with session := exSession }

/-- The cost-precedence scenario with both discount and overwrite removed. -/
def costScenarioPlain : BillingResponse :=
  { costScenarioFull with session := exSession, discount := none }

/-- The cost-precedence counterexample: the overwrite is set, but to `0`,
which the source discards as falsy. -/
def costScenarioZeroOverwrite : BillingResponse :=
  { costScenarioFull with session := { exSession with costOverwrite := some 0 } }

/-- A calendar instant used by the segment fixtures. -/
def exDate : DateTime :=
  { year := 2025, month := 1, day := 1, hour := 8, minute := 0, second := 0, epochMs := 1735718400000 }

/-- The negative-cost segment of the segment-filtering scenario. -/
def segNeg : BillingSegment :=
  { ruleId := 1, ruleName := "adjustment", startTime := exDate, endTime := exDate,
    durationMinutes := 0, cost := -5, isCapped := false }

/-- The positive-cost segment of the segment-filtering scenario. -/
def segPos : BillingSegment :=
  { ruleId := 2, ruleName := "hourly", startTime := exDate, endTime := exDate,
    durationMinutes := 60, cost := 10, isCapped := false }

/-- The billing response of the segment-filtering scenario. -/
def segScenario : BillingResponse :=
  { exBillingResponse with
    billing := { startTime := none, endTime := none, totalCost := 5, segments := [segNeg, segPos] } }

/-- A free asset expiring 2025-03-01. -/
def assetMar : UserAsset :=
  { id := 1, userId := 7, assetDefId := 1, assetType := "FREE", assetId := 1, asset := none,
    addAt := exDate, activeAt := none,
    expireAt := some { year := 2025, month := 3, day := 1, hour := 0, minute := 0, second := 0,
                       epochMs := 1740787200000 },
    comment := "", count := 3 }

/-- A free asset expiring 2025-01-15. -/
def assetJan : UserAsset :=
  { id := 2, userId := 7, assetDefId := 1, assetType := "FREE", assetId := 2, asset := none,
    addAt := exDate, activeAt := none,
    expireAt := some { year := 2025, month := 1, day := 15, hour := 0, minute := 0, second := 0,
                       epochMs := 1736899200000 },
    comment := "", count := 5 }

/-- A free asset expiring 2025-02-10. -/
def assetFeb : UserAsset :=
  { id := 3, userId := 7, assetDefId := 1, assetType := "FREE", assetId := 3, asset := none,
    addAt := exDate, activeAt := none,
    expireAt := some { year := 2025, month := 2, day := 10, hour := 0, minute := 0, second := 0,
                       epochMs := 1739145600000 },
    comment := "", count := 2 }

/-- The wallet of the expiring-asset scenario: free assets expiring
2025-03-01, 2025-01-15, 2025-02-10 in that order. -/
def expiryScenarioWallet : Wallet :=
  { zeroWallet with
    free := { available := 10, all := 10,
              details := some { available := [assetMar, assetJan, assetFeb], unavailable := [] } } }

/-- A store holding a stale pending entry (recorded at epoch-ms 5) for the
fixture caller. -/
def staleStore : Store := fun k => if k == "10001" then some 5 else none

/-- A thrown error carrying the message `"bad"` in its response payload. -/
def exMessageError : ApiError :=
  { response := some { data := some { message := some "bad" } } }

/-- A thrown error carrying an *empty* message string in its response payload. -/
def exEmptyMessageError : ApiError :=
  { response := some { data := some { message := some "" } } }

/-! ## Helper lemmas -/

/-- Guarded flat-mapping is flat-mapping over the filtered list. -/
theorem flatMap_ite_eq_filter_flatMap {α β : Type} (p : α → Prop) [DecidablePred p]
    (f : α → List β) (l : List α) :
    (l.flatMap fun a => if p a then f a else []) = (l.filter fun a => decide (p a)).flatMap f := by
  induction l with
  | nil => simp
  | cons a l ih => by_cases h : p a <;> simp [h, ih]

/-- The head of a stable ascending merge sort is the first element of the
input attaining the minimal key. -/
theorem mergeSort_head_firstMinBy {α : Type} (key : α → Int) (l : List α) :
    (l.mergeSort fun a b => decide (key a ≤ key b)).head? = firstMinBy key l := by
  have htrans : ∀ a b c : α, (decide (key a ≤ key b)) = true → (decide (key b ≤ key c)) = true →
      (decide (key a ≤ key c)) = true := by
    intro a b c hab hbc
    simp only [decide_eq_true_eq] at *
    omega
  have htotal : ∀ a b : α, ((decide (key a ≤ key b)) || (decide (key b ≤ key a))) = true := by
    intro a b
    simp only [Bool.or_eq_true, decide_eq_true_eq]
    omega
  induction l with
  | nil => simp [firstMinBy]
  | cons a l ih =>
    obtain ⟨l₁, l₂, h1, h2, h3⟩ := List.mergeSort_cons htrans htotal a l
    cases l₁ with
    | nil =>
      simp only [List.nil_append] at h1 h2
      rw [h1]
      cases hfm : firstMinBy key l with
      | none => simp [firstMinBy, hfm]
      | some b =>
        rw [h2, hfm] at ih
        cases l₂ with
        | nil => simp at ih
        | cons b' t =>
          simp only [List.head?_cons, Option.some.injEq] at ih
          subst ih
          have hsorted := List.sorted_mergeSort htrans htotal (a :: l)
          rw [h1] at hsorted
          have hab : key a ≤ key b' := by
            have := (List.pairwise_cons.mp hsorted).1 b' (by simp)
            simpa using this
          simp [firstMinBy, hfm, not_lt.mpr hab]
    | cons c l₁' =>
      rw [h1]
      rw [h2] at ih
      simp only [List.cons_append, List.head?_cons] at ih ⊢
      have hc : key c < key a := by
        have := h3 c (by simp)
        simp only [Bool.not_eq_eq_eq_not, Bool.not_true, decide_eq_false_iff_not, not_le] at this
        omega
      simp [firstMinBy, ← ih, hc]

/-- `firstMinBy` of a non-empty list is defined. -/
theorem firstMinBy_isSome {α : Type} (key : α → Int) (a : α) (l : List α) :
    (firstMinBy key (a :: l)).isSome := by
  cases hfm : firstMinBy key l with
  | none => simp [firstMinBy, hfm]
  | some b => by_cases h : key b < key a <;> simp [firstMinBy, hfm, h]

/-- `jsSplit` never returns the empty list. -/
theorem jsSplit_ne_nil (sep : Char) (l : List Char) : jsSplit sep l ≠ [] := by
  cases l with
  | nil => simp [jsSplit]
  | cons c cs =>
    simp only [jsSplit]
    by_cases h : c = sep
    · simp [h]
    · simp only [h, if_false]
      cases jsSplit sep cs <;> simp

/-- A one-piece `jsSplit` result is the whole input. -/
theorem jsSplit_length_one (sep : Char) (l : List Char)
    (h : (jsSplit sep l).length = 1) : jsSplit sep l = [l] := by
  induction l with
  | nil => rfl
  | cons c cs ih =>
    by_cases hc : c = sep
    · exfalso
      have hne := jsSplit_ne_nil sep cs
      simp only [jsSplit, hc, if_true, List.length_cons] at h
      cases hcs : jsSplit sep cs with
      | nil => exact hne hcs
      | cons x xs => rw [hcs] at h; simp at h
    · cases hcs : jsSplit sep cs with
      | nil => exact absurd hcs (jsSplit_ne_nil sep cs)
      | cons x xs =>
        simp only [jsSplit, hc, if_false, hcs, List.length_cons] at h ⊢
        cases xs with
        | nil =>
          have : jsSplit sep cs = [cs] := by
            apply ih
            rw [hcs]
            rfl
          rw [hcs] at this
          simp only [List.cons.injEq] at this
          simp [this.1]
        | cons y ys => simp at h

/-- With exactly two pieces, the second piece of `jsSplit` is everything after
the (unique, hence first) separator occurrence. -/
theorem jsSplit_second (sep : Char) (l : List Char)
    (h : (jsSplit sep l).length = 2) :
    ∃ rest, l.dropWhile (fun c => c ≠ sep) = sep :: rest ∧
      (jsSplit sep l).get? 1 = some rest := by
  induction l with
  | nil => simp [jsSplit] at h
  | cons c cs ih =>
    by_cases hc : c = sep
    · subst hc
      refine ⟨cs, by simp [List.dropWhile_cons], ?_⟩
      have hlen : (jsSplit c cs).length = 1 := by
        simp only [jsSplit, if_true, List.length_cons] at h
        omega
      simp [jsSplit, jsSplit_length_one c cs hlen]
    · cases hcs : jsSplit sep cs with
      | nil => exact absurd hcs (jsSplit_ne_nil sep cs)
      | cons x xs =>
        simp only [jsSplit, hc, if_false, hcs, List.length_cons] at h ⊢
        have hlen : (jsSplit sep cs).length = 2 := by rw [hcs]; simpa using h
        obtain ⟨rest, hdrop, hget⟩ := ih hlen
        rw [hcs] at hget
        exact ⟨rest, by simpa [List.dropWhile_cons, hc] using hdrop, by simpa using hget⟩

/-- A list whose head fails the predicate is untouched by `dropWhile`. -/
theorem dropWhile_eq_self_of_head {α : Type} (p : α → Bool) (l : List α)
    (h : ∀ c, l.head? = some c → p c = false) : l.dropWhile p = l := by
  cases l with
  | nil => rfl
  | cons a l => simp [List.dropWhile_cons, h a rfl]

/-! ## Claim theorems -/

/-- C1.  Confirmation idempotence: for a user with no pending entry, a first
logout check at a (positive epoch) time `t` records a pending entry and is not
the confirmation branch; a second check at `t + 30000` ms (age below the
60000 ms TTL) deletes the entry and confirms; a third check at `t + 30001`
with no intervening calls is again not confirmed and records a new window —
consumption clears the stored state. -/
theorem c1_confirmation_idempotence (context : ActionContext) (store : Store) (t : Int)
    (b1 b3 : BillingResponse) (l2 : LogoutResponse)
    (lr1 lr3 : Except ApiError LogoutResponse) (br2 : Except ApiError BillingResponse)
    (hU : store context.session.userId = none) (ht : 0 < t) :
    (handleLogoutCmd context none store t (Except.ok b1) lr1).confirmed = false ∧
    (handleLogoutCmd context none store t (Except.ok b1) lr1).store context.session.userId = some t ∧
    (handleLogoutCmd context none
      (handleLogoutCmd context none store t (Except.ok b1) lr1).store
      (t + 30000) br2 (Except.ok l2)).confirmed = true ∧
    (handleLogoutCmd context none
      (handleLogoutCmd context none store t (Except.ok b1) lr1).store
      (t + 30000) br2 (Except.ok l2)).store context.session.userId = none ∧
    (handleLogoutCmd context none
      (handleLogoutCmd context none
        (handleLogoutCmd context none store t (Except.ok b1) lr1).store
        (t + 30000) br2 (Except.ok l2)).store
      (t + 30001) (Except.ok b3) lr3).confirmed = false ∧
    (handleLogoutCmd context none
      (handleLogoutCmd context none
        (handleLogoutCmd context none store t (Except.ok b1) lr1).store
        (t + 30000) br2 (Except.ok l2)).store
      (t + 30001) (Except.ok b3) lr3).store context.session.userId = some (t + 30001) := by
  have hc1 : logoutConfirmCond store context.session.userId t = false := by
    simp [logoutConfirmCond, hU]
  have hs1 : (handleLogoutCmd context none store t (Except.ok b1) lr1).store
      = fun k => if k == context.session.userId then some t else store k := by
    simp only [handleLogoutCmd, getTargetUserId, hc1, Bool.false_eq_true, if_false]
  have hc2 : logoutConfirmCond
      (fun k => if k == context.session.userId then some t else store k)
      context.session.userId (t + 30000) = true := by
    simp only [logoutConfirmCond, beq_self_eq_true, if_true]
    simp only [Bool.and_eq_true, bne_iff_ne, ne_eq, decide_eq_true_eq]
    exact ⟨by omega, by omega⟩
  have hs2 : (handleLogoutCmd context none
      (handleLogoutCmd context none store t (Except.ok b1) lr1).store
      (t + 30000) br2 (Except.ok l2)).store
      = fun k => if k == context.session.userId then none
          else if k == context.session.userId then some t else store k := by
    rw [hs1]
    simp only [handleLogoutCmd, getTargetUserId, hc2, if_true]
  have hc3 : logoutConfirmCond
      (fun k => if k == context.session.userId then none
          else if k == context.session.userId then some t else store k)
      context.session.userId (t + 30001) = false := by
    simp [logoutConfirmCond]
  refine ⟨?_, ?_, ?_, ?_, ?_, ?_⟩
  · simp only [handleLogoutCmd, getTargetUserId, hc1, Bool.false_eq_true, if_false]
  · rw [hs1]
    simp
  · rw [hs1]
    simp only [handleLogoutCmd, getTargetUserId, hc2, if_true]
  · rw [hs2]
    simp
  · rw [hs2]
    simp only [handleLogoutCmd, getTargetUserId, hc3, Bool.false_eq_true, if_false]
  · rw [hs2]
    simp only [handleLogoutCmd, getTargetUserId, hc3, Bool.false_eq_true, if_false]
    simp

/-- C1 witness: the three-step scenario evaluated at a concrete caller, empty
store and `t = 1000`. -/
theorem c1_confirmation_idempotence_witness :
    emptyStore exContext.session.userId = none ∧ (0 : Int) < 1000 ∧
    ((handleLogoutCmd exContext none emptyStore 1000 (Except.ok exBillingResponse)
        (Except.ok exLogoutResponse)).confirmed = false ∧
     (handleLogoutCmd exContext none emptyStore 1000 (Except.ok exBillingResponse)
        (Except.ok exLogoutResponse)).store exContext.session.userId = some 1000 ∧
     (handleLogoutCmd exContext none
        (handleLogoutCmd exContext none emptyStore 1000 (Except.ok exBillingResponse)
          (Except.ok exLogoutResponse)).store
        (1000 + 30000) (Except.ok exBillingResponse) (Except.ok exLogoutResponse)).confirmed = true ∧
     (handleLogoutCmd exContext none
        (handleLogoutCmd exContext none emptyStore 1000 (Except.ok exBillingResponse)
          (Except.ok exLogoutResponse)).store
        (1000 + 30000) (Except.ok exBillingResponse) (Except.ok exLogoutResponse)).store
        exContext.session.userId = none ∧
     (handleLogoutCmd exContext none
        (handleLogoutCmd exContext none
          (handleLogoutCmd exContext none emptyStore 1000 (Except.ok exBillingResponse)
            (Except.ok exLogoutResponse)).store
          (1000 + 30000) (Except.ok exBillingResponse) (Except.ok exLogoutResponse)).store
        (1000 + 30001) (Except.ok exBillingResponse) (Except.ok exLogoutResponse)).confirmed = false ∧
     (handleLogoutCmd exContext none
        (handleLogoutCmd exContext none
          (handleLogoutCmd exContext none emptyStore 1000 (Except.ok exBillingResponse)
            (Except.ok exLogoutResponse)).store
          (1000 + 30000) (Except.ok exBillingResponse) (Except.ok exLogoutResponse)).store
        (1000 + 30001) (Except.ok exBillingResponse) (Except.ok exLogoutResponse)).store
        exContext.session.userId = some (1000 + 30001)) :=
  ⟨rfl, by decide,
    c1_confirmation_idempotence exContext emptyStore 1000 exBillingResponse exBillingResponse
      exLogoutResponse (Except.ok exLogoutResponse) (Except.ok exLogoutResponse)
      (Except.ok exBillingResponse) rfl (by decide)⟩

/-- C3.  TTL expiry of the confirmation window: for a user with no pending
entry, a logout check at time `t` followed by a second check at `t + 61000` ms
(age ≥ the 60000 ms TTL) is not confirmed either time; the second call instead
records a fresh pending entry with the new timestamp. -/
theorem c3_ttl_expiry (context : ActionContext) (store : Store) (t : Int)
    (b1 b2 : BillingResponse) (lr1 lr2 : Except ApiError LogoutResponse)
    (hU : store context.session.userId = none) :
    (handleLogoutCmd context none store t (Except.ok b1) lr1).confirmed = false ∧
    (handleLogoutCmd context none store t (Except.ok b1) lr1).store context.session.userId = some t ∧
    (handleLogoutCmd context none
      (handleLogoutCmd context none store t (Except.ok b1) lr1).store
      (t + 61000) (Except.ok b2) lr2).confirmed = false ∧
    (handleLogoutCmd context none
      (handleLogoutCmd context none store t (Except.ok b1) lr1).store
      (t + 61000) (Except.ok b2) lr2).store context.session.userId = some (t + 61000) := by
  have hc1 : logoutConfirmCond store context.session.userId t = false := by
    simp [logoutConfirmCond, hU]
  have hs1 : (handleLogoutCmd context none store t (Except.ok b1) lr1).store
      = fun k => if k == context.session.userId then some t else store k := by
    simp only [handleLogoutCmd, getTargetUserId, hc1, Bool.false_eq_true, if_false]
  have hc2 : logoutConfirmCond
      (fun k => if k == context.session.userId then some t else store k)
      context.session.userId (t + 61000) = false := by
    simp only [logoutConfirmCond, beq_self_eq_true, if_true]
    simp only [Bool.and_eq_false_iff, bne_eq_false_iff_eq, decide_eq_false_iff_not, not_lt]
    right
    omega
  refine ⟨?_, ?_, ?_, ?_⟩
  · simp only [handleLogoutCmd, getTargetUserId, hc1, Bool.false_eq_true, if_false]
  · rw [hs1]
    simp
  · rw [hs1]
    simp only [handleLogoutCmd, getTargetUserId, hc2, Bool.false_eq_true, if_false]
  · rw [hs1]
    simp only [handleLogoutCmd, getTargetUserId, hc2, Bool.false_eq_true, if_false]
    simp

/-- C3 witness: the stale-window scenario evaluated at a concrete caller,
empty store and `t = 1000`. -/
theorem c3_ttl_expiry_witness :
    emptyStore exContext.session.userId = none ∧
    ((handleLogoutCmd exContext none emptyStore 1000 (Except.ok exBillingResponse)
        (Except.ok exLogoutResponse)).confirmed = false ∧
     (handleLogoutCmd exContext none emptyStore 1000 (Except.ok exBillingResponse)
        (Except.ok exLogoutResponse)).store exContext.session.userId = some 1000 ∧
     (handleLogoutCmd exContext none
        (handleLogoutCmd exContext none emptyStore 1000 (Except.ok exBillingResponse)
          (Except.ok exLogoutResponse)).store
        (1000 + 61000) (Except.ok exBillingResponse) (Except.ok exLogoutResponse)).confirmed = false ∧
     (handleLogoutCmd exContext none
        (handleLogoutCmd exContext none emptyStore 1000 (Except.ok exBillingResponse)
          (Except.ok exLogoutResponse)).store
        (1000 + 61000) (Except.ok exBillingResponse) (Except.ok exLogoutResponse)).store
        exContext.session.userId = some (1000 + 61000)) :=
  ⟨rfl,
    c3_ttl_expiry exContext emptyStore 1000 exBillingResponse exBillingResponse
      (Except.ok exLogoutResponse) (Except.ok exLogoutResponse) rfl⟩

/-- C10.  Confirmation consumed before the remote close: in the confirming
branch the pending entry is deleted before the remote logout outcome is
examined, so when that call fails the error propagates but the entry is
already gone, and the next invocation takes the preview branch (a fresh
billing call and a fresh pending entry) rather than retrying finalization. -/
theorem c10_consume_before_close (context : ActionContext) (store : Store)
    (now v now2 : Int) (lrErr : ApiError) (br : Except ApiError BillingResponse)
    (b2 : BillingResponse) (lr2 : Except ApiError LogoutResponse)
    (hv : store context.session.userId = some v) (hv0 : v ≠ 0)
    (hage : now - v < 60 * 1000) :
    (handleLogoutCmd context none store now br (Except.error lrErr)).confirmed = true ∧
    (handleLogoutCmd context none store now br (Except.error lrErr)).result = Except.error lrErr ∧
    (handleLogoutCmd context none store now br (Except.error lrErr)).calls
      = [RemoteCall.logoutCall context.session.userId] ∧
    (handleLogoutCmd context none store now br (Except.error lrErr)).store
      context.session.userId = none ∧
    (handleLogoutCmd context none
      (handleLogoutCmd context none store now br (Except.error lrErr)).store
      now2 (Except.ok b2) lr2).confirmed = false ∧
    (handleLogoutCmd context none
      (handleLogoutCmd context none store now br (Except.error lrErr)).store
      now2 (Except.ok b2) lr2).calls = [RemoteCall.billingCall context.session.userId] ∧
    (handleLogoutCmd context none
      (handleLogoutCmd context none store now br (Except.error lrErr)).store
      now2 (Except.ok b2) lr2).store context.session.userId = some now2 := by
  have hcond : logoutConfirmCond store context.session.userId now = true := by
    simp only [logoutConfirmCond, hv]
    simp only [Bool.and_eq_true, bne_iff_ne, ne_eq, decide_eq_true_eq]
    exact ⟨hv0, hage⟩
  have hs1 : (handleLogoutCmd context none store now br (Except.error lrErr)).store
      = fun k => if k == context.session.userId then none else store k := by
    simp only [handleLogoutCmd, getTargetUserId, hcond, if_true]
  have hcond2 : logoutConfirmCond
      (fun k => if k == context.session.userId then none else store k)
      context.session.userId now2 = false := by
    simp [logoutConfirmCond]
  refine ⟨?_, ?_, ?_, ?_, ?_, ?_, ?_⟩
  · simp only [handleLogoutCmd, getTargetUserId, hcond, if_true]
  · simp only [handleLogoutCmd, getTargetUserId, hcond, if_true]
  · simp only [handleLogoutCmd, getTargetUserId, hcond, if_true]
  · rw [hs1]
    simp
  · rw [hs1]
    simp only [handleLogoutCmd, getTargetUserId, hcond2, Bool.false_eq_true, if_false]
  · rw [hs1]
    simp only [handleLogoutCmd, getTargetUserId, hcond2, Bool.false_eq_true, if_false]
  · rw [hs1]
    simp only [handleLogoutCmd, getTargetUserId, hcond2, Bool.false_eq_true, if_false]
    simp

/-- C10 witness: a confirming invocation whose remote logout fails, evaluated
at a concrete caller with a pending entry recorded at epoch-ms 5. -/
theorem c10_consume_before_close_witness :
    staleStore exContext.session.userId = some 5 ∧ (5 : Int) ≠ 0 ∧
    (10 : Int) - 5 < 60 * 1000 ∧
    ((handleLogoutCmd exContext none staleStore 10 (Except.ok exBillingResponse)
        (Except.error exApiError)).confirmed = true ∧
     (handleLogoutCmd exContext none staleStore 10 (Except.ok exBillingResponse)
        (Except.error exApiError)).result = Except.error exApiError ∧
     (handleLogoutCmd exContext none staleStore 10 (Except.ok exBillingResponse)
        (Except.error exApiError)).calls = [RemoteCall.logoutCall exContext.session.userId] ∧
     (handleLogoutCmd exContext none staleStore 10 (Except.ok exBillingResponse)
        (Except.error exApiError)).store exContext.session.userId = none ∧
     (handleLogoutCmd exContext none
        (handleLogoutCmd exContext none staleStore 10 (Except.ok exBillingResponse)
          (Except.error exApiError)).store
        20 (Except.ok exBillingResponse) (Except.ok exLogoutResponse)).confirmed = false ∧
     (handleLogoutCmd exContext none
        (handleLogoutCmd exContext none staleStore 10 (Except.ok exBillingResponse)
          (Except.error exApiError)).store
        20 (Except.ok exBillingResponse) (Except.ok exLogoutResponse)).calls
        = [RemoteCall.billingCall exContext.session.userId] ∧
     (handleLogoutCmd exContext none
        (handleLogoutCmd exContext none staleStore 10 (Except.ok exBillingResponse)
          (Except.error exApiError)).store
        20 (Except.ok exBillingResponse) (Except.ok exLogoutResponse)).store
        exContext.session.userId = some 20) :=
  ⟨rfl, by decide, by decide,
    c10_consume_before_close exContext staleStore 10 5 20 exApiError
      (Except.ok exBillingResponse) exBillingResponse (Except.ok exLogoutResponse)
      rfl (by decide) (by decide)⟩

/-- C4 counterexample: an invocation in which the remote billing-preview call
fails neither consumes nor records/refreshes the pending entry.  The caller
holds a stale entry (recorded at epoch-ms 5, now 70000, age ≥ TTL), the
billing call throws, and the store is left exactly as it was: the stale entry
is still present, was not deleted, and was not refreshed to the new
timestamp. -/
theorem c4_billing_failure_counterexample :
    (handleLogoutCmd exContext none staleStore 70000
      (Except.error exApiError) (Except.ok exLogoutResponse)).store "10001" = some 5 ∧
    (handleLogoutCmd exContext none staleStore 70000
      (Except.error exApiError) (Except.ok exLogoutResponse)).confirmed = false ∧
    (handleLogoutCmd exContext none staleStore 70000
      (Except.error exApiError) (Except.ok exLogoutResponse)).calls
      = [RemoteCall.billingCall "10001"] ∧
    some (5 : Int) ≠ none ∧ some (5 : Int) ≠ some (70000 : Int) := by
  refine ⟨rfl, rfl, rfl, by decide, by decide⟩

/-- C4 amended: when identity resolution succeeds, the confirming branch
always deletes the target's pending entry (before, and hence regardless of,
the remote logout outcome); the preview branch records/refreshes the entry
when the billing call succeeds, and leaves the store completely unchanged
when the billing call fails. -/
theorem c4_store_update_amended (context : ActionContext) (user : Option String)
    (store : Store) (now : Int) (br : Except ApiError BillingResponse)
    (lr : Except ApiError LogoutResponse) (target : String)
    (h : getTargetUserId context user = Except.ok target) :
    (logoutConfirmCond store target now = true →
      (handleLogoutCmd context user store now br lr).store target = none) ∧
    (logoutConfirmCond store target now = false →
      (∀ b, br = Except.ok b →
        (handleLogoutCmd context user store now br lr).store target = some now) ∧
      (∀ e, br = Except.error e →
        (handleLogoutCmd context user store now br lr).store = store)) := by
  constructor
  · intro hcond
    cases lr <;> simp [handleLogoutCmd, h, hcond]
  · intro hcond
    constructor
    · intro b hb
      subst hb
      simp [handleLogoutCmd, h, hcond]
    · intro e he
      subst he
      simp [handleLogoutCmd, h, hcond]

/-- C4 amended witness: the store-update trichotomy evaluated at a concrete
confirming invocation whose remote logout fails. -/
theorem c4_store_update_amended_witness :
    getTargetUserId exContext none = Except.ok "10001" ∧
    ((logoutConfirmCond staleStore "10001" 10 = true →
      (handleLogoutCmd exContext none staleStore 10 (Except.error exApiError)
        (Except.error exApiError)).store "10001" = none) ∧
     (logoutConfirmCond staleStore "10001" 10 = false →
      (∀ b, (Except.error exApiError : Except ApiError BillingResponse) = Except.ok b →
        (handleLogoutCmd exContext none staleStore 10 (Except.error exApiError)
          (Except.error exApiError)).store "10001" = some 10) ∧
      (∀ e, (Except.error exApiError : Except ApiError BillingResponse) = Except.error e →
        (handleLogoutCmd exContext none staleStore 10 (Except.error exApiError)
          (Except.error exApiError)).store = staleStore))) :=
  ⟨rfl,
    c4_store_update_amended exContext none staleStore 10 (Except.error exApiError)
      (Except.error exApiError) "10001" rfl⟩

/-- C2 counterexample: with `totalCost = 100`, `discount.finalCost = 80` and
`costOverwrite` *set to `0`*, the source's truthiness test discards the
overwrite and the rendered final cost is `80`, not the overwrite value `0`
demanded by the claimed precedence. -/
theorem c2_costOverwrite_zero_counterexample :
    costScenarioZeroOverwrite.session.costOverwrite = some 0 ∧
    resolvedFinalCost costScenarioZeroOverwrite = 80 ∧
    specFinalCostClaimed costScenarioZeroOverwrite = 0 ∧
    ("结算价: 80 月饼" ∈ formatBillingLines costScenarioZeroOverwrite) ∧
    ¬ ("结算价: 0 月饼" ∈ formatBillingLines costScenarioZeroOverwrite) := by
  decide

/-- C2 amended: the rendered final cost is `session.costOverwrite` when that
field is set *and non-zero*; otherwise `discount.finalCost` when a discount is
present; otherwise `billing.totalCost` — for every combination of the three
fields.  The `结算价` line of the rendered preview carries exactly this value,
and the claimed 100/80/50 scenario evaluates to 50, 80 and 100 as stated. -/
theorem c2_cost_precedence_amended (res : BillingResponse) :
    resolvedFinalCost res = specFinalCostAmended res ∧
    ("结算价: " ++ toString (resolvedFinalCost res) ++ " 月饼") ∈ formatBillingLines res ∧
    resolvedFinalCost costScenarioFull = 50 ∧
    resolvedFinalCost costScenarioDiscount = 80 ∧
    resolvedFinalCost costScenarioPlain = 100 ∧
    ("结算价: 50 月饼" ∈ formatBillingLines costScenarioFull) ∧
    ("结算价: 80 月饼" ∈ formatBillingLines costScenarioDiscount) ∧
    ("结算价: 100 月饼" ∈ formatBillingLines costScenarioPlain) := by
  refine ⟨?_, ?_, by decide, by decide, by decide, by decide, by decide, by decide⟩
  · unfold resolvedFinalCost specFinalCostAmended
    cases res.session.costOverwrite <;> cases res.discount <;> simp
  · simp [formatBillingLines, List.mem_append]

/-- C5.  Segment filtering: with a non-empty segment list, the rendered
segment block of the billing preview is exactly the rendering of the segments
with non-negative cost, in order — every `cost < 0` segment is dropped
entirely and every `cost ≥ 0` segment contributes its lines to the output. -/
theorem c5_segment_filtering (res : BillingResponse)
    (h : res.billing.segments ≠ []) :
    segmentSection res.billing.segments
      = (res.billing.segments.filter fun seg => decide (seg.cost ≥ 0)).flatMap segmentLines ∧
    ∀ seg ∈ res.billing.segments, seg.cost ≥ 0 →
      "- " ++ seg.ruleName ∈ formatBillingLines res := by
  have hsec : segmentSection res.billing.segments
      = (res.billing.segments.filter fun seg => decide (seg.cost ≥ 0)).flatMap segmentLines := by
    unfold segmentSection
    rw [if_pos (by simpa [List.length_pos] using h)]
    exact flatMap_ite_eq_filter_flatMap _ _ _
  refine ⟨hsec, ?_⟩
  intro seg hmem hcost
  have hline : "- " ++ seg.ruleName ∈ segmentSection res.billing.segments := by
    rw [hsec]
    refine List.mem_flatMap.mpr ⟨seg, ?_, ?_⟩
    · exact List.mem_filter.mpr ⟨hmem, by simpa using hcost⟩
    · simp [segmentLines]
  simp only [formatBillingLines, List.mem_append]
  tauto

/-- C5 witness: the claimed scenario — one segment with `cost = -5` and one
with `cost = 10` — renders exactly the `cost = 10` segment's lines. -/
theorem c5_segment_filtering_witness :
    segScenario.billing.segments ≠ [] ∧
    (segmentSection segScenario.billing.segments
      = (segScenario.billing.segments.filter fun seg => decide (seg.cost ≥ 0)).flatMap segmentLines ∧
     ∀ seg ∈ segScenario.billing.segments, seg.cost ≥ 0 →
      "- " ++ seg.ruleName ∈ formatBillingLines segScenario) ∧
    segmentSection segScenario.billing.segments = segmentLines segPos :=
  ⟨by decide, c5_segment_filtering segScenario (by decide), by decide⟩

/-- C6.  Expiring-asset selection: the wallet presenter emits the "expiring
soon" note exactly when some free-tier available asset has a non-null
`expireAt`; among those assets the reported one is the minimum by expiry
timestamp with ties broken by original list order (the first element
attaining the minimal key). -/
theorem c6_expiring_selection (res : Wallet) :
    (expiringNote res = [] ↔ expiringFreeAssets res = []) ∧
    (expiringFreeAssets res = [] ↔ ∀ a ∈ freeAvailableAssets res, a.expireAt = none) ∧
    (∀ a, firstMinBy expireKey (expiringFreeAssets res) = some a →
      expiringNote res = ["\n注意：您有 " ++ toString a.count ++ " 免费月饼将于 " ++
        formatDateTime a.expireAt ++ " 过期。"]) := by
  refine ⟨?_, ?_, ?_⟩
  · constructor
    · intro hnote
      by_contra hne
      obtain ⟨x, l, hxl⟩ : ∃ x l, expiringFreeAssets res = x :: l := by
        cases hE : expiringFreeAssets res with
        | nil => exact absurd hE hne
        | cons x l => exact ⟨x, l, rfl⟩
      have hlen : (expiringFreeAssets res).length > 0 := by rw [hxl]; simp
      have hhead := mergeSort_head_firstMinBy expireKey (expiringFreeAssets res)
      have hsome : (firstMinBy expireKey (expiringFreeAssets res)).isSome := by
        rw [hxl]; exact firstMinBy_isSome _ _ _
      obtain ⟨a, ha⟩ := Option.isSome_iff_exists.mp hsome
      rw [ha] at hhead
      have : expiringNote res ≠ [] := by
        unfold expiringNote
        rw [if_pos hlen]
        simp only [hhead]
        simp
      exact this hnote
    · intro hE
      unfold expiringNote
      rw [hE]
      simp
  · unfold expiringFreeAssets
    rw [List.filter_eq_nil_iff]
    constructor
    · intro h a ha
      have h2 := h a ha
      cases hE : a.expireAt with
      | none => rfl
      | some d => rw [hE] at h2; simp at h2
    · intro h a ha
      simp [h a ha]
  · intro a ha
    have hne : expiringFreeAssets res ≠ [] := by
      intro hE
      rw [hE] at ha
      simp [firstMinBy] at ha
    have hlen : (expiringFreeAssets res).length > 0 := List.length_pos.mpr hne
    have hhead := mergeSort_head_firstMinBy expireKey (expiringFreeAssets res)
    rw [ha] at hhead
    unfold expiringNote
    rw [if_pos hlen]
    simp only [hhead]

/-- C6 witness: with free-asset expiries 2025-03-01, 2025-01-15 and 2025-02-10
in that order, the presenter reports the 2025-01-15 asset (count 5). -/
theorem c6_expiring_selection_witness :
    firstMinBy expireKey (expiringFreeAssets expiryScenarioWallet) = some assetJan ∧
    expiringNote expiryScenarioWallet =
      ["\n注意：您有 5 免费月饼将于 2025/01/15 00:00:00 过期。"] := by
  refine ⟨by decide, ?_⟩
  have h := (c6_expiring_selection expiryScenarioWallet).2.2 assetJan (by decide)
  rw [h]
  decide

/-- C7 counterexample: for the argument `"QQ:a:b"` the handler resolves the
target as `split(':')[1] = "a"` — the second colon-separated field — and uses
it for the remote call, whereas stripping the text up to the first `:` yields
`"a:b"`.  The claimed resolution rule disagrees with the code on this input. -/
theorem c7_split_counterexample :
    (handleLogoutCmd exAdminContext (some "QQ:a:b") emptyStore 1000
      (Except.ok exBillingResponse) (Except.ok exLogoutResponse)).calls
      = [RemoteCall.billingCall "a"] ∧
    specTargetId "QQ:a:b" = "a:b" ∧
    ("a" : String) ≠ "a:b" := by
  refine ⟨rfl, rfl, by decide⟩

/-- C7 amended: with a non-empty explicit target, a caller failing the
admin-capability check receives the fixed localized "insufficient privilege"
string, no remote call is issued and the store is untouched; a caller passing
the check has every remote call issued against `split(':')[1]` of the
argument — which coincides with the prefix-stripped id exactly when the
argument splits into precisely two colon-separated fields. -/
theorem c7_target_resolution_amended (context : ActionContext) (u : String)
    (store : Store) (now : Int) (br : Except ApiError BillingResponse)
    (lr : Except ApiError LogoutResponse) (hu : u ≠ "") :
    (context.adminCheck = false →
      (handleLogoutCmd context (some u) store now br lr).result = Except.ok "权限不足" ∧
      (handleLogoutCmd context (some u) store now br lr).calls = [] ∧
      (handleLogoutCmd context (some u) store now br lr).store = store) ∧
    (context.adminCheck = true →
      getTargetUserId context (some u) = Except.ok (jsSplitColonSecond u) ∧
      ∀ c ∈ (handleLogoutCmd context (some u) store now br lr).calls,
        RemoteCall.target c = jsSplitColonSecond u) ∧
    ((jsSplit ':' u.data).length = 2 → jsSplitColonSecond u = specTargetId u) := by
  have hutrue : (u != "") = true := by simpa [bne_iff_ne] using hu
  refine ⟨?_, ?_, ?_⟩
  · intro hadmin
    have hg : getTargetUserId context (some u) = Except.error "权限不足" := by
      simp [getTargetUserId, hutrue, hadmin]
    refine ⟨?_, ?_, ?_⟩ <;> simp [handleLogoutCmd, hg]
  · intro hadmin
    have hg : getTargetUserId context (some u) = Except.ok (jsSplitColonSecond u) := by
      simp [getTargetUserId, hutrue, hadmin]
    refine ⟨hg, ?_⟩
    intro c hc
    by_cases hcond : logoutConfirmCond store (jsSplitColonSecond u) now = true
    · cases lr <;> simp [handleLogoutCmd, hg, hcond] at hc <;> simp [hc, RemoteCall.target]
    · rw [Bool.not_eq_true] at hcond
      cases br <;> simp [handleLogoutCmd, hg, hcond] at hc <;> simp [hc, RemoteCall.target]
  · intro hlen
    obtain ⟨rest, hdrop, hget⟩ := jsSplit_second ':' u.data hlen
    unfold jsSplitColonSecond specTargetId
    rw [hget, hdrop]

/-- C7 amended witness: the resolution behaviour evaluated at an admin caller
with the concrete argument `"QQ:10002"`. -/
theorem c7_target_resolution_amended_witness :
    ("QQ:10002" : String) ≠ "" ∧
    ((exAdminContext.adminCheck = false →
      (handleLogoutCmd exAdminContext (some "QQ:10002") emptyStore 1000
        (Except.ok exBillingResponse) (Except.ok exLogoutResponse)).result
        = Except.ok "权限不足" ∧
      (handleLogoutCmd exAdminContext (some "QQ:10002") emptyStore 1000
        (Except.ok exBillingResponse) (Except.ok exLogoutResponse)).calls = [] ∧
      (handleLogoutCmd exAdminContext (some "QQ:10002") emptyStore 1000
        (Except.ok exBillingResponse) (Except.ok exLogoutResponse)).store = emptyStore) ∧
     (exAdminContext.adminCheck = true →
      getTargetUserId exAdminContext (some "QQ:10002")
        = Except.ok (jsSplitColonSecond "QQ:10002") ∧
      ∀ c ∈ (handleLogoutCmd exAdminContext (some "QQ:10002") emptyStore 1000
          (Except.ok exBillingResponse) (Except.ok exLogoutResponse)).calls,
        RemoteCall.target c = jsSplitColonSecond "QQ:10002") ∧
     ((jsSplit ':' ("QQ:10002" : String).data).length = 2 →
      jsSplitColonSecond "QQ:10002" = specTargetId "QQ:10002")) :=
  ⟨by decide,
    c7_target_resolution_amended exAdminContext "QQ:10002" emptyStore 1000
      (Except.ok exBillingResponse) (Except.ok exLogoutResponse) (by decide)⟩

/-- C8 counterexample: a thrown error whose `response.data.message` field is
present but empty, in a session whose `messageId` is present but empty, is
normalized to the generic failure message with no quote marker — not to the
carried (empty) message with a quote marker, as the claim as stated demands. -/
theorem c8_empty_message_counterexample :
    handleAction { userId := "10001", messageId := some "" }
      (Except.error exEmptyMessageError) = genericFailure ∧
    apiMessageOf exEmptyMessageError = some "" ∧
    genericFailure ≠ "" ∧
    ((quoteElement "").data.isPrefixOf genericFailure.data) = false := by
  refine ⟨rfl, rfl, by decide, by decide⟩

/-- C8 amended: the wrapper always returns a string; a session with a
non-empty `messageId` has the quote marker prepended and an absent or empty
`messageId` leaves the reply bare; a successful action's string passes
through; a thrown error contributes its carried `response.data.message` when
that field is present and non-empty, and the generic localized failure
message otherwise. -/
theorem c8_error_normalization_amended (s : SessionCtx) (r : Except ApiError String) :
    (∀ mid, s.messageId = some mid → mid ≠ "" →
      handleAction s r = quoteElement mid ++ handleAction { s with messageId := none } r) ∧
    (s.messageId = none ∨ s.messageId = some "" →
      handleAction s r = handleAction { s with messageId := none } r) ∧
    (∀ m, r = Except.ok m → handleAction { s with messageId := none } r = m) ∧
    (∀ e msg, r = Except.error e → apiMessageOf e = some msg → msg ≠ "" →
      handleAction { s with messageId := none } r = msg) ∧
    (∀ e, r = Except.error e → (apiMessageOf e = none ∨ apiMessageOf e = some "") →
      handleAction { s with messageId := none } r = genericFailure) := by
  refine ⟨?_, ?_, ?_, ?_, ?_⟩
  · intro mid hmid hne
    have : (mid != "") = true := by simpa [bne_iff_ne] using hne
    simp [handleAction, hmid, this]
  · rintro (hmid | hmid) <;> simp [handleAction, hmid]
  · intro m hm
    subst hm
    simp [handleAction]
  · intro e msg hr hmsg hne
    subst hr
    have : (msg != "") = true := by simpa [bne_iff_ne] using hne
    simp [handleAction, hmsg, this]
  · rintro e hr (hmsg | hmsg) <;> subst hr <;> simp [handleAction, hmsg]

/-- C8 amended witness: a quotable session and an error carrying the message
`"bad"` produce the quote marker followed by that message. -/
theorem c8_error_normalization_amended_witness :
    handleAction { userId := "10001", messageId := some "42" }
      (Except.error exMessageError) = quoteElement "42" ++ "bad" := by
  have h := c8_error_normalization_amended { userId := "10001", messageId := some "42" }
    (Except.error exMessageError)
  rw [h.1 "42" rfl (by decide), h.2.2.2.1 exMessageError "bad" rfl rfl (by decide)]

/-- C9 counterexample: `makeUrl` joins the stripped base and endpoint around a
fixed `/api/` path component, so the resulting URL is *not* the base followed
by a single `/` followed by the endpoint as the claim states. -/
theorem c9_api_seam_counterexample :
    makeUrl "http://h" "users" = "http://h/api/users" ∧
    "http://h" ++ "/" ++ "users" = "http://h/users" ∧
    ("http://h/api/users" : String) ≠ "http://h/users" := by
  refine ⟨?_, ?_, by decide⟩ <;> rfl

/-- C9 amended: the request URL is the base with trailing whitespace and
slashes stripped, then `/api/`, then the endpoint with leading whitespace and
slashes stripped — exactly one path separator at each side of the `api`
component.  For clean inputs the URL is literally `base ++ "/api/" ++
endpoint`, and redundant seam slashes on either side collapse. -/
theorem c9_url_seam_amended (b e : String)
    (hb : ∀ c, b.data.getLast? = some c → c.isWhitespace = false ∧ c ≠ '/')
    (he : ∀ c, e.data.head? = some c → c.isWhitespace = false ∧ c ≠ '/') :
    makeUrl b e = b ++ "/api/" ++ e ∧
    makeUrl (b ++ "/") e = b ++ "/api/" ++ e ∧
    makeUrl b ("/" ++ e) = b ++ "/api/" ++ e := by
  have hbase : ((b.data.reverse.dropWhile Char.isWhitespace).dropWhile fun c => c = '/').reverse
      = b.data := by
    have h1 : b.data.reverse.dropWhile Char.isWhitespace = b.data.reverse := by
      apply dropWhile_eq_self_of_head
      intro c hc
      exact (hb c (by rwa [← List.head?_reverse])).1
    rw [h1]
    have h2 : (b.data.reverse.dropWhile fun c => c = '/') = b.data.reverse := by
      apply dropWhile_eq_self_of_head
      intro c hc
      have := (hb c (by rwa [← List.head?_reverse])).2
      simpa using this
    rw [h2, List.reverse_reverse]
  have hep : ((e.data.dropWhile Char.isWhitespace).dropWhile fun c => c = '/') = e.data := by
    have h1 : e.data.dropWhile Char.isWhitespace = e.data := by
      apply dropWhile_eq_self_of_head
      intro c hc
      exact (he c hc).1
    rw [h1]
    apply dropWhile_eq_self_of_head
    intro c hc
    have := (he c hc).2
    simpa using this
  refine ⟨?_, ?_, ?_⟩
  · show String.mk _ ++ "/api/" ++ String.mk _ = b ++ "/api/" ++ e
    rw [hbase, hep]
  · show String.mk _ ++ "/api/" ++ String.mk _ = b ++ "/api/" ++ e
    have hdat : (b ++ "/").data = b.data ++ ['/'] := by
      rw [String.data_append]
    rw [hdat, hep]
    have hrev : (b.data ++ ['/']).reverse = '/' :: b.data.reverse := by simp
    rw [hrev]
    have hws : Char.isWhitespace '/' = false := by decide
    rw [List.dropWhile_cons, hws]
    simp only [Bool.false_eq_true, if_false]
    rw [List.dropWhile_cons]
    simp only [decide_True, if_true]
    have h2 : (b.data.reverse.dropWhile fun c => c = '/') = b.data.reverse := by
      apply dropWhile_eq_self_of_head
      intro c hc
      have := (hb c (by rwa [← List.head?_reverse])).2
      simpa using this
    rw [h2, List.reverse_reverse]
  · show String.mk _ ++ "/api/" ++ String.mk _ = b ++ "/api/" ++ e
    rw [hbase]
    have hdat : ("/" ++ e).data = '/' :: e.data := by
      rw [String.data_append]
      rfl
    rw [hdat]
    have hws : Char.isWhitespace '/' = false := by decide
    rw [List.dropWhile_cons, hws]
    simp only [Bool.false_eq_true, if_false]
    rw [List.dropWhile_cons]
    simp only [decide_True, if_true]
    have h2 : (e.data.dropWhile fun c => c = '/') = e.data := by
      apply dropWhile_eq_self_of_head
      intro c hc
      have := (he c hc).2
      simpa using this
    rw [h2]

/-- C9 amended witness: the seam behaviour evaluated at a clean base and
endpoint, with a redundant slash on either side collapsing to the same URL. -/
theorem c9_url_seam_amended_witness :
    makeUrl "http://h" "users" = "http://h" ++ "/api/" ++ "users" ∧
    makeUrl ("http://h" ++ "/") "users" = "http://h" ++ "/api/" ++ "users" ∧
    makeUrl "http://h" ("/" ++ "users") = "http://h" ++ "/api/" ++ "users" :=
  c9_url_seam_amended "http://h" "users"
    (by
      intro c hc
      have h8 : ("http://h" : String).data.getLast? = some 'h' := rfl
      rw [h8] at hc
      cases hc
      exact ⟨by decide, by decide⟩)
    (by
      intro c hc
      have h8 : ("users" : String).data.head? = some 'u' := rfl
      rw [h8] at hc
      cases hc
      exact ⟨by decide, by decide⟩)
